import Mathlib

/-!
Verification development for a small backend glue layer:
an HTTP cost router dispatching to AWS/Azure billing collaborators,
a Prometheus-style metrics registration module, and a fail-fast
deployment shell script.
-/

/-- Model of a JavaScript value as far as the router manipulates one:
primitives, strings, numbers, and objects as association lists of fields. -/
inductive JsValue where
  | undefined : JsValue
  | null : JsValue
  | bool (b : Bool) : JsValue
  | num (n : Int) : JsValue
  | str (s : String) : JsValue
  | obj (fields : List (String × JsValue)) : JsValue

/-- Lookup of a property in an object field list (first match). -/
def lookupField : List (String × JsValue) → String → Option JsValue
  | [], _ => none
  | (k, v) :: rest, key => if k == key then some v else lookupField rest key

/-- Property access on a JS object; `none` when the value is not an object
or the field is absent. -/
def JsValue.field : JsValue → String → Option JsValue
  | .obj fs, k => lookupField fs k
  | _, _ => none

/-- Whether a JS value is an object. -/
def JsValue.isObj : JsValue → Bool
  | .obj _ => true
  | _ => false

/-- JS strict equality of a value against a string literal, as in
`cloudProvider === "aws"`: true exactly when the value is that string. -/
def JsValue.strictEqStr : JsValue → String → Bool
  | .str s, t => s == t
  | _, _ => false

/-- Error message raised by JS when destructuring from undefined or null. -/
def destructureError : String :=
  "TypeError: cannot destructure property cloudProvider of req.body"

/-- Model of `const \x7b cloudProvider \x7d = req.body`: throws a TypeError
when the value is undefined or null; on any other value yields the property,
or `undefined` when absent (primitives are boxed and have no such property). -/
def destructureField (v : JsValue) (k : String) : Except String JsValue :=
  match v with
  | .undefined => .error destructureError
  | .null => .error destructureError
  | w => .ok ((w.field k).getD .undefined)

/-- The two external cost-fetch collaborators of the router. -/
inductive Provider where
  | aws : Provider
  | azure : Provider
deriving DecidableEq

/-- A collaborator: resolves with a value or rejects with an error message. -/
abbrev Fetcher : Type := JsValue → Except String JsValue

/-- An HTTP response: status code and JSON body (as the JS object passed to
`res.json`). -/
structure HttpResponse where
  status : Nat
  body : JsValue

/-- The 400 body `\x7bsuccess:false, message:"Invalid cloud provider."\x7d`. -/
def invalidProviderBody : JsValue :=
  .obj [("success", .bool false), ("message", .str "Invalid cloud provider.")]

/-- The 200 body `\x7bsuccess:true, costs\x7d`. -/
def successBody (costs : JsValue) : JsValue :=
  .obj [("success", .bool true), ("costs", costs)]

/-- The 500 body `\x7bsuccess:false, message:error.message\x7d`. -/
def errorBody (message : String) : JsValue :=
  .obj [("success", .bool false), ("message", .str message)]

/-- The POST /costs handler. Returns the response (or an uncaught exception,
as `Except.error`, when the destructuring of `cloudProvider` throws outside
the try/catch) together with the trace of collaborator invocations, each
recorded with the argument it received. -/
def costsHandler (awsFetch azureFetch : Fetcher) (reqBody : JsValue) :
    Except String HttpResponse × List (Provider × JsValue) :=
  match destructureField reqBody "cloudProvider" with
  | .error e => (.error e, [])
  | .ok cloudProvider =>
    if cloudProvider.strictEqStr "aws" then
      match awsFetch reqBody with
      | .ok costs => (.ok ⟨200, successBody costs⟩, [(.aws, reqBody)])
      | .error e => (.ok ⟨500, errorBody e⟩, [(.aws, reqBody)])
    else if cloudProvider.strictEqStr "azure" then
      match azureFetch reqBody with
      | .ok costs => (.ok ⟨200, successBody costs⟩, [(.azure, reqBody)])
      | .error e => (.ok ⟨500, errorBody e⟩, [(.azure, reqBody)])
    else
      (.ok ⟨400, invalidProviderBody⟩, [])

/-! ## Metrics module (backend/metrics.js) -/

/-- Configuration of a prom-client histogram as constructed in metrics.js. -/
structure HistogramConfig where
  name : String
  help : String
  labelNames : List String
  buckets : List Nat
deriving DecidableEq

/-- The histogram constructed by metrics.js:
name `http_request_duration_ms`, labels method/route/code, millisecond
buckets from 50 to 10000. -/
def httpRequestDurationMicroseconds : HistogramConfig :=
  { name := "http_request_duration_ms"
    help := "Duration of HTTP requests in ms"
    labelNames := ["method", "route", "code"]
    buckets := [50, 100, 200, 300, 400, 500, 750, 1000, 2500, 5000, 10000] }

/-- What the metrics module registers: the default-metrics probe interval
passed to `collectDefaultMetrics` (milliseconds) and the histograms it
constructs. -/
structure MetricsModule where
  defaultMetricsTimeoutMs : Nat
  histograms : List HistogramConfig
deriving DecidableEq

/-- The metrics module of metrics.js: default metrics probed every 5000 ms
and exactly one histogram. -/
def metricsModule : MetricsModule :=
  { defaultMetricsTimeoutMs := 5000
    histograms := [httpRequestDurationMicroseconds] }

/-- The exports of metrics.js: the client handle (abstracted away) and the
histogram instance. -/
structure MetricsExports where
  histogram : HistogramConfig
deriving DecidableEq

/-- Process-wide state relevant to metrics registration: the module cache
entry for metrics.js and the set of metric names known to the registry. -/
structure ProcessState where
  moduleCache : Option MetricsExports
  registryNames : List String
deriving DecidableEq

/-- Modelled from the spec: the body of metrics.js run against the
prom-client registry, which is not under src/. Constructing a histogram
whose name is already registered raises; otherwise the default-metrics
collection is started and the histogram is registered, yielding the module
exports. -/
def metricsModuleBody (ps : ProcessState) : Except String (ProcessState × MetricsExports) :=
  if ps.registryNames.contains httpRequestDurationMicroseconds.name then
    .error "A metric with this name has already been registered"
  else
    .ok ({ ps with
            registryNames := httpRequestDurationMicroseconds.name :: ps.registryNames },
         { histogram := httpRequestDurationMicroseconds })

/-- Modelled from the spec: the process-wide registration path, i.e. loading
metrics.js through the host module cache (not under src/); per the spec,
"registration happens once at process-wide scope". A cached load returns the
cached exports without re-running the module body. -/
def registerMetricsPath (ps : ProcessState) : Except String (ProcessState × MetricsExports) :=
  match ps.moduleCache with
  | some ex => .ok (ps, ex)
  | none =>
    match metricsModuleBody ps with
    | .error e => .error e
    | .ok (ps1, ex) => .ok ({ ps1 with moduleCache := some ex }, ex)

/-- A fresh process: nothing cached, empty registry. -/
def freshProcess : ProcessState :=
  { moduleCache := none, registryNames := [] }

/-- The process state after metrics.js has been loaded once. -/
def loadedProcess : ProcessState :=
  { moduleCache := some { histogram := httpRequestDurationMicroseconds }
    registryNames := [httpRequestDurationMicroseconds.name] }

/-! ## Deployment script (set -e fail-fast) -/

/-- A shell command acting on an abstract world state: `none` models a
non-zero exit status. -/
abbrev ShellCmd (σ : Type) : Type := σ → Option σ

/-- Run a command list under `set -e`: execution stops at the first failing
command. Returns the final state, whether the whole script succeeded, and
how many commands were executed. No completed effect is ever undone. -/
def runSetE {σ : Type} : List (ShellCmd σ) → σ → σ × Bool × Nat
  | [], s => (s, true, 0)
  | c :: cs, s =>
    match c s with
    | none => (s, false, 1)
    | some s1 =>
      let r := runSetE cs s1
      (r.1, r.2.1, r.2.2 + 1)

/-- Run a command list to completion, `none` if any command fails. -/
def runAllOk {σ : Type} : List (ShellCmd σ) → σ → Option σ
  | [], s => some s
  | c :: cs, s =>
    match c s with
    | none => none
    | some s1 => runAllOk cs s1

/-- The effectful steps of the deployment script, in order, over an abstract
cloud/filesystem state. The AWS CLI semantics of each step is external to
the repository, so each is an abstract command supplied by the environment. -/
structure DeployEnv (σ : Type) where
  createS3Bucket : ShellCmd σ
  setupIamRole : ShellCmd σ
  packageFetcher : ShellCmd σ
  deployFetcher : ShellCmd σ
  packageShutdown : ShellCmd σ
  deployShutdown : ShellCmd σ

/-- The deployment script: its six numbered steps run in sequence under
`set -e`. -/
def deployScript {σ : Type} (env : DeployEnv σ) : List (ShellCmd σ) :=
  [env.createS3Bucket, env.setupIamRole, env.packageFetcher,
   env.deployFetcher, env.packageShutdown, env.deployShutdown]

/-- A concrete environment over Nat states used as an evaluation witness:
each step increments the state, except deploying the fetcher, which fails. -/
def natDeployEnv : DeployEnv Nat :=
  { createS3Bucket := fun n => some (n + 1)
    setupIamRole := fun n => some (n + 1)
    packageFetcher := fun n => some (n + 1)
    deployFetcher := fun _ => none
    packageShutdown := fun n => some (n + 1)
    deployShutdown := fun n => some (n + 1) }

/-! ## Theorems -/

/-- C1: for every POST /costs request whose body has `cloudProvider` equal
to the string "aws", the router invokes only the AWS cost-fetch collaborator
and never the Azure one, and symmetrically for "azure" it invokes only the
Azure collaborator and never the AWS one. -/
theorem costs_dispatch_exclusive (awsFetch azureFetch : Fetcher) (reqBody : JsValue) :
    (destructureField reqBody "cloudProvider" = .ok (.str "aws") →
      (costsHandler awsFetch azureFetch reqBody).2.map Prod.fst = [Provider.aws]) ∧
    (destructureField reqBody "cloudProvider" = .ok (.str "azure") →
      (costsHandler awsFetch azureFetch reqBody).2.map Prod.fst = [Provider.azure]) := by
  constructor
  · intro h
    unfold costsHandler
    rw [h]
    cases hf : awsFetch reqBody <;> simp [JsValue.strictEqStr, hf]
  · intro h
    unfold costsHandler
    rw [h]
    cases hf : azureFetch reqBody <;> simp [JsValue.strictEqStr, hf]

/-- Witness for C1: a concrete aws-provider body dispatches to the AWS
collaborator only. -/
theorem costs_dispatch_exclusive_witness :
    (costsHandler (fun _ => .ok .null) (fun _ => .ok .null)
      (.obj [("cloudProvider", .str "aws"), ("startDate", .str "2024-01-01")])).2.map
        Prod.fst = [Provider.aws] :=
  (costs_dispatch_exclusive _ _ _).1 rfl

/-- C2: when the body destructures but `cloudProvider` is absent (hence
undefined) or any value other than "aws"/"azure", the response is exactly
the 400 invalid-provider body, and no collaborator is invoked. -/
theorem costs_invalid_provider (awsFetch azureFetch : Fetcher) (reqBody cp : JsValue)
    (h : destructureField reqBody "cloudProvider" = .ok cp)
    (hna : cp.strictEqStr "aws" = false)
    (hnz : cp.strictEqStr "azure" = false) :
    costsHandler awsFetch azureFetch reqBody = (.ok ⟨400, invalidProviderBody⟩, []) := by
  unfold costsHandler
  rw [h]
  simp [hna, hnz]

/-- Witness for C2: a body with no `cloudProvider` field gets the 400
response and no collaborator call. -/
theorem costs_invalid_provider_witness :
    costsHandler (fun _ => .ok .null) (fun _ => .ok .null) (.obj [])
      = (.ok ⟨400, invalidProviderBody⟩, []) :=
  costs_invalid_provider _ _ (.obj []) .undefined rfl rfl rfl

/-- C3: with a valid provider, when the invoked collaborator resolves with
value V, the response is exactly `\x7bsuccess:true, costs:V\x7d` with
status 200. -/
theorem costs_success_response (awsFetch azureFetch : Fetcher) (reqBody v : JsValue)
    (h : destructureField reqBody "cloudProvider" = .ok (.str "aws")
           ∧ awsFetch reqBody = .ok v
       ∨ destructureField reqBody "cloudProvider" = .ok (.str "azure")
           ∧ azureFetch reqBody = .ok v) :
    (costsHandler awsFetch azureFetch reqBody).1 = .ok ⟨200, successBody v⟩ := by
  rcases h with ⟨h1, h2⟩ | ⟨h1, h2⟩ <;>
    (unfold costsHandler; rw [h1]; simp [JsValue.strictEqStr, h2])

/-- Witness for C3: an aws request whose collaborator resolves with 123
yields 200 and the success body. -/
theorem costs_success_response_witness :
    (costsHandler (fun _ => .ok (.num 123)) (fun _ => .ok .null)
      (.obj [("cloudProvider", .str "aws")])).1 = .ok ⟨200, successBody (.num 123)⟩ :=
  costs_success_response _ _ _ _ (Or.inl ⟨rfl, rfl⟩)

/-- C4: with a valid provider, when the invoked collaborator rejects with
message M, the response is exactly `\x7bsuccess:false, message:M\x7d` with
status 500, the collaborator having been invoked exactly once (no retry) and
the message passed through verbatim (no reclassification). -/
theorem costs_error_response (awsFetch azureFetch : Fetcher) (reqBody : JsValue) (m : String)
    (h : destructureField reqBody "cloudProvider" = .ok (.str "aws")
           ∧ awsFetch reqBody = .error m
       ∨ destructureField reqBody "cloudProvider" = .ok (.str "azure")
           ∧ azureFetch reqBody = .error m) :
    (costsHandler awsFetch azureFetch reqBody).1 = .ok ⟨500, errorBody m⟩ ∧
    (costsHandler awsFetch azureFetch reqBody).2.length = 1 := by
  rcases h with ⟨h1, h2⟩ | ⟨h1, h2⟩ <;>
    (unfold costsHandler; rw [h1]; simp [JsValue.strictEqStr, h2])

/-- Witness for C4: an azure request whose collaborator rejects yields 500
with the error body and a single collaborator call. -/
theorem costs_error_response_witness :
    (costsHandler (fun _ => .ok .null) (fun _ => .error "boom")
      (.obj [("cloudProvider", .str "azure")])).1 = .ok ⟨500, errorBody "boom"⟩ ∧
    (costsHandler (fun _ => .ok .null) (fun _ => .error "boom")
      (.obj [("cloudProvider", .str "azure")])).2.length = 1 :=
  costs_error_response _ _ _ "boom" (Or.inr ⟨rfl, rfl⟩)

/-- C5: with a valid provider, the router passes the full request body to the
selected collaborator unmodified, in exactly one call, with no validation or
transformation beyond the discriminator check. -/
theorem costs_body_passthrough (awsFetch azureFetch : Fetcher) (reqBody cp : JsValue)
    (h : destructureField reqBody "cloudProvider" = .ok cp)
    (hv : cp = .str "aws" ∨ cp = .str "azure") :
    ∃ p, (costsHandler awsFetch azureFetch reqBody).2 = [(p, reqBody)] := by
  rcases hv with rfl | rfl
  · unfold costsHandler
    rw [h]
    cases hf : awsFetch reqBody <;> exact ⟨.aws, by simp [JsValue.strictEqStr, hf]⟩
  · unfold costsHandler
    rw [h]
    cases hf : azureFetch reqBody <;> exact ⟨.azure, by simp [JsValue.strictEqStr, hf]⟩

/-- Witness for C5: a concrete aws request body, extra fields included, is
handed to the collaborator as-is. -/
theorem costs_body_passthrough_witness :
    ∃ p, (costsHandler (fun _ => .ok .null) (fun _ => .ok .null)
      (.obj [("cloudProvider", .str "aws"), ("endDate", .str "2024-01-31")])).2
        = [(p, .obj [("cloudProvider", .str "aws"), ("endDate", .str "2024-01-31")])] :=
  costs_body_passthrough _ _ _ _ rfl (Or.inl rfl)

/-- Counterexample to C9 as stated: a string request body is not an object,
yet destructuring from it does not throw in JS (only undefined and null do);
the handler returns the specified 400 invalid-provider response instead of
raising an uncaught exception. -/
theorem costs_nonobject_counterexample :
    JsValue.isObj (.str "oops") = false ∧
    costsHandler (fun _ => .ok .null) (fun _ => .ok .null) (.str "oops")
      = (.ok ⟨400, invalidProviderBody⟩, []) :=
  ⟨rfl, rfl⟩

/-- C9 amended: the destructuring of `cloudProvider` happens before the
try/catch, so for a request whose body is undefined (e.g. no body parser
produced one) or null, the handler throws an uncaught exception, produces
none of the specified JSON responses, and invokes no collaborator. -/
theorem costs_undefined_body_throws (awsFetch azureFetch : Fetcher) (reqBody : JsValue)
    (h : reqBody = .undefined ∨ reqBody = .null) :
    costsHandler awsFetch azureFetch reqBody = (.error destructureError, []) := by
  rcases h with rfl | rfl <;> rfl

/-- Witness for the amended C9: an undefined body makes the handler throw. -/
theorem costs_undefined_body_throws_witness :
    costsHandler (fun _ => .ok .null) (fun _ => .ok .null) .undefined
      = (.error destructureError, []) :=
  costs_undefined_body_throws _ _ _ (Or.inl rfl)

/-- C10: every response the handler produces has a boolean `success` field;
`success` is true iff the status is 200 iff the body carries a `costs`
field; the non-200 responses (400 and 500) carry a string `message` field
and no `costs` field. -/
theorem costs_response_invariant (awsFetch azureFetch : Fetcher) (reqBody : JsValue)
    (r : HttpResponse) (h : (costsHandler awsFetch azureFetch reqBody).1 = .ok r) :
    (∃ b, r.body.field "success" = some (.bool b)) ∧
    (r.body.field "success" = some (.bool true) ↔ r.status = 200) ∧
    (r.body.field "success" = some (.bool true) ↔ (r.body.field "costs").isSome) ∧
    (r.status = 200 ∨ r.status = 400 ∨ r.status = 500) ∧
    (r.status ≠ 200 →
      (∃ m, r.body.field "message" = some (.str m)) ∧ r.body.field "costs" = none) := by
  unfold costsHandler at h
  cases hd : destructureField reqBody "cloudProvider" with
  | error e =>
    rw [hd] at h
    exact absurd h (by simp)
  | ok cp =>
    rw [hd] at h
    by_cases ha : cp.strictEqStr "aws" = true
    · simp only [ha, if_true] at h
      cases hf : awsFetch reqBody with
      | ok v =>
        rw [hf] at h
        cases h
        simp [successBody, JsValue.field, lookupField]
      | error e =>
        rw [hf] at h
        cases h
        simp [errorBody, JsValue.field, lookupField]
    · by_cases hz : cp.strictEqStr "azure" = true
      · simp only [ha, hz, if_false, if_true, Bool.false_eq_true] at h
        cases hf : azureFetch reqBody with
        | ok v =>
          rw [hf] at h
          cases h
          simp [successBody, JsValue.field, lookupField]
        | error e =>
          rw [hf] at h
          cases h
          simp [errorBody, JsValue.field, lookupField]
      · simp only [ha, hz, if_false, Bool.false_eq_true] at h
        cases h
        simp [invalidProviderBody, JsValue.field, lookupField]

/-- Witness for C10: the invariant at the concrete 200 response of an aws
request resolving with 7. -/
theorem costs_response_invariant_witness :
    (∃ b, (HttpResponse.mk 200 (successBody (.num 7))).body.field "success"
        = some (.bool b)) ∧
    ((HttpResponse.mk 200 (successBody (.num 7))).body.field "success"
        = some (.bool true) ↔ (HttpResponse.mk 200 (successBody (.num 7))).status = 200) ∧
    ((HttpResponse.mk 200 (successBody (.num 7))).body.field "success"
        = some (.bool true)
      ↔ ((HttpResponse.mk 200 (successBody (.num 7))).body.field "costs").isSome) ∧
    ((HttpResponse.mk 200 (successBody (.num 7))).status = 200
      ∨ (HttpResponse.mk 200 (successBody (.num 7))).status = 400
      ∨ (HttpResponse.mk 200 (successBody (.num 7))).status = 500) ∧
    ((HttpResponse.mk 200 (successBody (.num 7))).status ≠ 200 →
      (∃ m, (HttpResponse.mk 200 (successBody (.num 7))).body.field "message"
          = some (.str m)) ∧
      (HttpResponse.mk 200 (successBody (.num 7))).body.field "costs" = none) :=
  costs_response_invariant (fun _ => .ok (.num 7)) (fun _ => .ok .null)
    (.obj [("cloudProvider", .str "aws")]) ⟨200, successBody (.num 7)⟩ rfl

/-- C6: from a fresh process, the registration path succeeds; invoking it a
second time does not raise, leaves the process state unchanged, and the
registered histogram still has the stated bucket boundaries. -/
theorem metrics_registration_idempotent_once :
    registerMetricsPath freshProcess
        = .ok (loadedProcess, { histogram := httpRequestDurationMicroseconds }) ∧
    registerMetricsPath loadedProcess
        = .ok (loadedProcess, { histogram := httpRequestDurationMicroseconds }) ∧
    ({ histogram := httpRequestDurationMicroseconds } : MetricsExports).histogram.buckets
        = [50, 100, 200, 300, 400, 500, 750, 1000, 2500, 5000, 10000] :=
  ⟨rfl, rfl, rfl⟩

/-- C7: the metrics module registers exactly one histogram, named
`http_request_duration_ms`, with label names method/route/code, the stated
millisecond buckets, and default process metrics probed every 5000 ms. -/
theorem metrics_module_config :
    metricsModule.histograms = [httpRequestDurationMicroseconds] ∧
    metricsModule.histograms.length = 1 ∧
    httpRequestDurationMicroseconds.name = "http_request_duration_ms" ∧
    httpRequestDurationMicroseconds.labelNames = ["method", "route", "code"] ∧
    httpRequestDurationMicroseconds.buckets
        = [50, 100, 200, 300, 400, 500, 750, 1000, 2500, 5000, 10000] ∧
    metricsModule.defaultMetricsTimeoutMs = 5000 :=
  ⟨rfl, rfl, rfl, rfl, rfl, rfl⟩

/-- Under set -e, a failing command aborts the run right there: the commands
before it executed, the failing one is counted, nothing after it runs, and
the state reached by the completed commands persists. -/
theorem runSetE_firstFail {σ : Type} (pre : List (ShellCmd σ)) (c : ShellCmd σ)
    (rest : List (ShellCmd σ)) (s s1 : σ)
    (hpre : runAllOk pre s = some s1) (hfail : c s1 = none) :
    runSetE (pre ++ c :: rest) s = (s1, false, pre.length + 1) := by
  induction pre generalizing s with
  | nil =>
    simp only [runAllOk, Option.some.injEq] at hpre
    subst hpre
    simp [runSetE, hfail]
  | cons p ps ih =>
    cases hp : p s with
    | none =>
      rw [runAllOk, hp] at hpre
      exact absurd hpre (by simp)
    | some s2 =>
      rw [runAllOk, hp] at hpre
      simp [runSetE, hp, ih s2 hpre]

/-- C8: the deployment script is fail-fast: when its command sequence splits
into a successful prefix, a failing command and a remainder, exactly the
prefix and the failing command execute — no later step runs — and the final
state is the one the prefix reached, so no completed step is rolled back. -/
theorem deploy_failfast {σ : Type} (env : DeployEnv σ) (pre : List (ShellCmd σ))
    (c : ShellCmd σ) (rest : List (ShellCmd σ)) (s s1 : σ)
    (hsplit : deployScript env = pre ++ c :: rest)
    (hpre : runAllOk pre s = some s1) (hfail : c s1 = none) :
    runSetE (deployScript env) s = (s1, false, pre.length + 1) := by
  rw [hsplit]
  exact runSetE_firstFail pre c rest s s1 hpre hfail

/-- Witness for C8: in the concrete Nat environment whose fourth step fails,
the script stops after four commands with the three completed effects kept. -/
theorem deploy_failfast_witness :
    runSetE (deployScript natDeployEnv) 0 = (3, false, 4) :=
  deploy_failfast natDeployEnv
    [natDeployEnv.createS3Bucket, natDeployEnv.setupIamRole, natDeployEnv.packageFetcher]
    natDeployEnv.deployFetcher
    [natDeployEnv.packageShutdown, natDeployEnv.deployShutdown]
    0 3 rfl rfl rfl
